import Mathlib

/-!
Verification of the fraud-detection service's validation, feature-derivation
and request-handling layer (src/app.py), shallowly embedded in Lean 4.
Python floats are modelled as rationals; Python ints as integers.
-/

namespace FraudApp

/-- Inbound transaction record (src/app.py `TransactionRequest`, lines 93-162).
Field order and names follow the pydantic model; numeric domains are enforced
by `validateTransaction` below, not by the type. -/
structure TransactionRequest where
  transaction_amount : ℚ
  account_balance : ℚ
  transaction_type : String
  device_type : String
  location : String
  merchant_category : String
  ip_address_flag : ℤ
  previous_fraudulent_activity : ℤ
  daily_transaction_count : ℤ
  avg_transaction_amount_7d : ℚ
  failed_transaction_count_7d : ℚ
  card_type : String
  card_age : ℤ
  transaction_distance : ℚ
  authentication_method : String
  risk_score : ℚ
  is_weekend : ℤ
deriving DecidableEq, Repr

/-- Allowed transaction types (src/app.py `validate_transaction_type`). -/
def allowedTransactionTypes : List String :=
  ["ATM Withdrawal", "POS", "Online", "Transfer", "Payment"]

/-- Allowed device types (src/app.py `validate_device_type`). -/
def allowedDeviceTypes : List String :=
  ["Mobile", "Laptop", "Tablet", "Desktop"]

/-- Allowed authentication methods (src/app.py `validate_auth_method`). -/
def allowedAuthMethods : List String :=
  ["Biometric", "Password", "PIN", "OTP"]

/-- Allowed card types (src/app.py `validate_card_type`). -/
def allowedCardTypes : List String :=
  ["Visa", "Mastercard", "Discover", "Amex"]

/-- Pydantic validation of a `TransactionRequest`: the `Field` bounds
(`gt=0`, `ge=0`, `le=1`) and the four categorical `@validator`s of
src/app.py lines 95-139.  Returns the record on success, or the name of
the offending field on failure. -/
def validateTransaction (t : TransactionRequest) : Except String TransactionRequest :=
  if ¬ (0 < t.transaction_amount) then .error "transaction_amount"
  else if ¬ (0 ≤ t.account_balance) then .error "account_balance"
  else if ¬ (0 ≤ t.ip_address_flag ∧ t.ip_address_flag ≤ 1) then .error "ip_address_flag"
  else if ¬ (0 ≤ t.previous_fraudulent_activity) then .error "previous_fraudulent_activity"
  else if ¬ (0 ≤ t.daily_transaction_count) then .error "daily_transaction_count"
  else if ¬ (0 ≤ t.avg_transaction_amount_7d) then .error "avg_transaction_amount_7d"
  else if ¬ (0 ≤ t.failed_transaction_count_7d) then .error "failed_transaction_count_7d"
  else if ¬ (0 ≤ t.card_age) then .error "card_age"
  else if ¬ (0 ≤ t.transaction_distance) then .error "transaction_distance"
  else if ¬ (0 ≤ t.risk_score ∧ t.risk_score ≤ 1) then .error "risk_score"
  else if ¬ (0 ≤ t.is_weekend ∧ t.is_weekend ≤ 1) then .error "is_weekend"
  else if ¬ (t.transaction_type ∈ allowedTransactionTypes) then .error "transaction_type"
  else if ¬ (t.device_type ∈ allowedDeviceTypes) then .error "device_type"
  else if ¬ (t.authentication_method ∈ allowedAuthMethods) then .error "authentication_method"
  else if ¬ (t.card_type ∈ allowedCardTypes) then .error "card_type"
  else .ok t

/-- `High_Failure_Flag` (src/app.py line 209): 1 if failed transactions > 0, else 0. -/
def highFailureFlag (t : TransactionRequest) : ℤ :=
  if 0 < t.failed_transaction_count_7d then 1 else 0

/-- `Failure_Rate` (src/app.py line 212): failed / daily when daily > 0, else 0.0. -/
def failureRate (t : TransactionRequest) : ℚ :=
  if 0 < t.daily_transaction_count then
    t.failed_transaction_count_7d / (t.daily_transaction_count : ℚ)
  else 0

/-- `Amount_Deviation` (src/app.py line 215): |transaction_amount − avg_transaction_amount_7d|. -/
def amountDeviation (t : TransactionRequest) : ℚ :=
  |t.transaction_amount - t.avg_transaction_amount_7d|

/-- `Risk_Amount_Interaction` (src/app.py line 218): risk_score × transaction_amount. -/
def riskAmountInteraction (t : TransactionRequest) : ℚ :=
  t.risk_score * t.transaction_amount

/-- The feature dictionary built by `preprocess_transaction`
(src/app.py lines 221-233), in the source's insertion order.  `hour` and
`month` are the wall-clock values read at lines 200-202, passed explicitly
here to keep the function pure. -/
def featureDict (hour month : ℤ) (t : TransactionRequest) : List (String × ℚ) :=
  [("Failed_Transaction_Count_7d", t.failed_transaction_count_7d),
   ("Risk_Score", t.risk_score),
   ("High_Failure_Flag", (highFailureFlag t : ℚ)),
   ("Transaction_Amount", t.transaction_amount),
   ("Avg_Transaction_Amount_7d", t.avg_transaction_amount_7d),
   ("Risk_Amount_Interaction", riskAmountInteraction t),
   ("Amount_Deviation", amountDeviation t),
   ("Failure_Rate", failureRate t),
   ("Hour", (hour : ℚ)),
   ("Card_Age", (t.card_age : ℚ)),
   ("Month", (month : ℚ))]

/-- The model-expected columns missing from the derived data
(src/app.py line 240). -/
def missingFeatures (featureNames : List String) (cols : List String) : List String :=
  featureNames.filter (fun f => ¬ f ∈ cols)

/-- `df[feat] = 0.0` for each missing feature (src/app.py lines 243-245):
pandas appends new columns after the existing ones. -/
def padMissing (featureNames : List String) (data : List (String × ℚ)) : List (String × ℚ) :=
  data ++ (missingFeatures featureNames (data.map Prod.fst)).map (fun f => (f, (0 : ℚ)))

/-- `preprocess_transaction` (src/app.py lines 195-250): build the feature
dictionary, and when `featureNames` is non-empty (`if feature_names:`) pad
missing columns with 0.0 and reorder to the model's expected column order
(`df = df[feature_names]`).  Returns the resulting column list together with
the list of missing features that line 242 logs as a warning. -/
def preprocessTransaction (featureNames : List String) (hour month : ℤ)
    (t : TransactionRequest) : List (String × ℚ) × List String :=
  if featureNames = [] then (featureDict hour month t, [])
  else
    (featureNames.map (fun f =>
       (f, ((padMissing featureNames (featureDict hour month t)).lookup f).getD 0)),
     missingFeatures featureNames ((featureDict hour month t).map Prod.fst))

/-- Fallback feature-name ordering used when the model artifact exposes none
(src/app.py lines 47-54). -/
def fallbackFeatureNames : List String :=
  ["Transaction_Amount", "Account_Balance", "Previous_Fraudulent_Activity",
   "Daily_Transaction_Count", "Avg_Transaction_Amount_7d",
   "Failed_Transaction_Count_7d", "Card_Age", "Transaction_Distance",
   "Risk_Score", "Is_Weekend", "Transaction_Type", "Device_Type",
   "Location", "Merchant_Category", "IP_Address_Flag", "Card_Type",
   "Authentication_Method"]

/-- `confidence = abs(fraud_probability - 0.5) * 2` (src/app.py lines 336 and 375). -/
def confidence (p : ℚ) : ℚ := |p - 1/2| * 2

/-- The loaded classifier (src/app.py global `model`): an opaque external
artifact exposing `predict_proba` (probability of the positive class) and
`predict` (predicted class label).  Either call may raise, which we model
with `Except`. -/
structure ClassifierModel where
  predictProba : List (String × ℚ) → Except String ℚ
  predictClass : List (String × ℚ) → Except String ℤ

/-- Response for one prediction (src/app.py `PredictionResponse`, lines 165-171;
the timestamp field is wall-clock output and is omitted). -/
structure PredictionResponse where
  fraud_probability : ℚ
  is_fraud : Bool
  confidence : ℚ
  response_time_ms : ℚ
deriving DecidableEq, Repr

/-- Batch response (src/app.py `BatchPredictionResponse`, lines 186-191). -/
structure BatchPredictionResponse where
  predictions : List PredictionResponse
  total_transactions : ℕ
  total_fraud_detected : ℕ
  response_time_ms : ℚ
deriving DecidableEq, Repr

/-- Caller-visible outcome of a request: 200 with a value, 422 pydantic
validation error, 503 model-not-loaded, 400 from the handler's own batch-size
check, or a 500 wrapping an inference failure (src/app.py lines 324-350,
360-399 and the exception handlers). -/
inductive ApiOutcome (α : Type) where
  | ok (value : α)
  | validationError (detail : String)
  | serviceUnavailable
  | badRequest (detail : String)
  | serverError (detail : String)
deriving DecidableEq, Repr

/-- The shared per-record pipeline body (src/app.py lines 330-336 and 372-375):
derive the feature frame, call `predict_proba` and `predict`, and compute the
confidence.  `rt` is the value written into `response_time_ms` (the measured
elapsed time for the single route, the constant 0 for batch items). -/
def processRecord (m : ClassifierModel) (featureNames : List String)
    (hour month : ℤ) (rt : ℚ) (t : TransactionRequest) :
    Except String PredictionResponse :=
  match m.predictProba (preprocessTransaction featureNames hour month t).1 with
  | .error e => .error e
  | .ok p =>
    match m.predictClass (preprocessTransaction featureNames hour month t).1 with
    | .error e => .error e
    | .ok c =>
      .ok { fraud_probability := p
            is_fraud := c == 1
            confidence := confidence p
            response_time_ms := rt }

/-- `POST /predict` (src/app.py lines 301-350) as seen by the client.  The
HTTP layer first parses and validates the body against `TransactionRequest`
(422 on failure, before the handler runs); the handler then rejects with 503
when no model is loaded, and wraps any inference exception as a 500 whose
detail is prefixed with `Prediction failed: `. -/
def predictRoute (loadedModel : Option ClassifierModel) (featureNames : List String)
    (hour month : ℤ) (elapsed : ℚ) (raw : TransactionRequest) :
    ApiOutcome PredictionResponse :=
  match validateTransaction raw with
  | .error f => .validationError f
  | .ok t =>
    match loadedModel with
    | none => .serviceUnavailable
    | some m =>
      match processRecord m featureNames hour month elapsed t with
      | .error e => .serverError ("Prediction failed: " ++ e)
      | .ok r => .ok r

/-- Pydantic validation of the batch body: each list entry is validated as a
`TransactionRequest`, surfacing the first offending field. -/
def validateTransactions : List TransactionRequest → Except String Unit
  | [] => .ok ()
  | t :: rest =>
    match validateTransaction t with
    | .error f => .error f
    | .ok _ => validateTransactions rest

/-- The batch loop of src/app.py lines 371-386: process records in order,
collecting the prediction list and the running fraud count; the first
exception aborts the whole loop. -/
def batchLoop (p : TransactionRequest → Except String PredictionResponse) :
    List TransactionRequest → Except String (List PredictionResponse × ℕ)
  | [] => .ok ([], 0)
  | t :: rest =>
    match p t with
    | .error e => .error e
    | .ok r =>
      match batchLoop p rest with
      | .error e => .error e
      | .ok (rs, c) => .ok (r :: rs, (if r.is_fraud then 1 else 0) + c)

/-- The body of `predict_fraud_batch` after its guards (src/app.py lines
366-399): run the loop with per-item `response_time_ms = 0`; on success report
`total_transactions = len(predictions)`, the accumulated fraud count and one
aggregate elapsed time; on any failure return a 500 wrapping the cause. -/
def batchHandler (m : ClassifierModel) (featureNames : List String)
    (hour month : ℤ) (elapsed : ℚ) (ts : List TransactionRequest) :
    ApiOutcome BatchPredictionResponse :=
  match batchLoop (processRecord m featureNames hour month 0) ts with
  | .error e => .serverError ("Batch prediction failed: " ++ e)
  | .ok (preds, c) =>
    .ok { predictions := preds
          total_transactions := preds.length
          total_fraud_detected := c
          response_time_ms := elapsed }

/-- `POST /predict/batch` (src/app.py lines 353-399) as seen by the client.
Pydantic enforces `max_items=100` and per-record validity (422, before the
handler); the handler then rejects with 503 when no model is loaded, re-checks
the 100-record cap (400, unreachable behind pydantic's limit), and runs the
batch loop. -/
def batchRoute (loadedModel : Option ClassifierModel) (featureNames : List String)
    (hour month : ℤ) (elapsed : ℚ) (raw : List TransactionRequest) :
    ApiOutcome BatchPredictionResponse :=
  if 100 < raw.length then .validationError "transactions"
  else
    match validateTransactions raw with
    | .error f => .validationError f
    | .ok _ =>
      match loadedModel with
      | none => .serviceUnavailable
      | some m =>
        if 100 < raw.length then .badRequest "Maximum 100 transactions per batch"
        else batchHandler m featureNames hour month elapsed raw

deriving instance DecidableEq for Except

/-!  Concrete fixtures: the documented example transaction (src/app.py lines
142-162, also the valid record used throughout src/tests/test_api.py) and
small concrete models used to exercise the handlers. -/

/-- The documented example record (src/app.py `json_schema_extra`). -/
def exampleTransaction : TransactionRequest :=
  { transaction_amount := 150.50
    account_balance := 5000.00
    transaction_type := "POS"
    device_type := "Mobile"
    location := "London"
    merchant_category := "Restaurants"
    ip_address_flag := 0
    previous_fraudulent_activity := 0
    daily_transaction_count := 5
    avg_transaction_amount_7d := 120.30
    failed_transaction_count_7d := 0.0
    card_type := "Visa"
    card_age := 365
    transaction_distance := 1500.25
    authentication_method := "PIN"
    risk_score := 0.15
    is_weekend := 0 }

/-- A classifier stub returning a fixed probability and class label. -/
def constModel (p : ℚ) (c : ℤ) : ClassifierModel :=
  { predictProba := fun _ => .ok p
    predictClass := fun _ => .ok c }

/-- The prediction `constModel (3/10) 0` yields through the single route
(measured time 1). -/
def examplePrediction : PredictionResponse :=
  { fraud_probability := 3/10, is_fraud := false, confidence := 2/5, response_time_ms := 1 }

/-- The prediction `constModel (3/10) 0` yields for a batch item
(per-item time 0). -/
def batchPrediction : PredictionResponse :=
  { fraud_probability := 3/10, is_fraud := false, confidence := 2/5, response_time_ms := 0 }

/-- A classifier stub whose probability call raises exactly when the feature
frame carries `Transaction_Amount = 999`. -/
def mixedModel : ClassifierModel :=
  { predictProba := fun df =>
      if df.lookup "Transaction_Amount" = some (999 : ℚ) then .error "boom" else .ok (3/10)
    predictClass := fun _ => .ok 0 }

/-- The spec's validation scenario record with `transaction_amount = -100`. -/
def invalidAmountTransaction : TransactionRequest :=
  { exampleTransaction with transaction_amount := -100 }

/-- C1: for every validated transaction record the feature deriver computes
`high_failure_flag = 1` iff `failed_transaction_count_7d > 0` (else 0),
`failure_rate = failed/daily` when `daily > 0` (else 0),
`amount_deviation = |amount - avg|`,
`risk_amount_interaction = risk_score * amount`,
and places these values in the derived feature dictionary; in particular for
amount 150.50, avg 120.30, failed 0.0, daily 5 it yields flag 0, rate 0,
deviation 30.2, and interaction `risk_score * 150.50`. -/
theorem C1_derived_feature_formulas :
    (∀ (h mo : ℤ) (t : TransactionRequest),
      (featureDict h mo t).lookup "High_Failure_Flag" = some ((highFailureFlag t : ℤ) : ℚ) ∧
      (featureDict h mo t).lookup "Failure_Rate" = some (failureRate t) ∧
      (featureDict h mo t).lookup "Amount_Deviation" = some (amountDeviation t) ∧
      (featureDict h mo t).lookup "Risk_Amount_Interaction" = some (riskAmountInteraction t)) ∧
    (∀ t : TransactionRequest,
      (highFailureFlag t = 1 ↔ 0 < t.failed_transaction_count_7d) ∧
      (highFailureFlag t = 0 ↔ ¬ 0 < t.failed_transaction_count_7d) ∧
      (0 < t.daily_transaction_count →
        failureRate t = t.failed_transaction_count_7d / (t.daily_transaction_count : ℚ)) ∧
      (¬ 0 < t.daily_transaction_count → failureRate t = 0) ∧
      amountDeviation t = |t.transaction_amount - t.avg_transaction_amount_7d| ∧
      riskAmountInteraction t = t.risk_score * t.transaction_amount) ∧
    (∀ t : TransactionRequest,
      t.transaction_amount = 150.50 → t.avg_transaction_amount_7d = 120.30 →
      t.failed_transaction_count_7d = 0 → t.daily_transaction_count = 5 →
      highFailureFlag t = 0 ∧ failureRate t = 0 ∧ amountDeviation t = 30.2 ∧
      riskAmountInteraction t = t.risk_score * 150.50) := by
  refine ⟨fun h mo t => ⟨rfl, rfl, rfl, rfl⟩, fun t => ⟨?_, ?_, ?_, ?_, rfl, rfl⟩, ?_⟩
  · unfold highFailureFlag; split <;> simp_all
  · unfold highFailureFlag; split <;> simp_all
  · intro hd; unfold failureRate; rw [if_pos hd]
  · intro hd; unfold failureRate; rw [if_neg hd]
  · intro t h1 h2 h3 h4
    refine ⟨?_, ?_, ?_, ?_⟩
    · unfold highFailureFlag; rw [h3]; norm_num
    · unfold failureRate; rw [h3, h4]; norm_num
    · unfold amountDeviation; rw [h1, h2]; norm_num
    · unfold riskAmountInteraction; rw [h1]

/-- Concrete instantiation of `C1_derived_feature_formulas` at the documented
example record. -/
theorem C1_derived_feature_formulas_witness :
    highFailureFlag exampleTransaction = 0 ∧ failureRate exampleTransaction = 0 ∧
    amountDeviation exampleTransaction = 30.2 ∧
    riskAmountInteraction exampleTransaction = exampleTransaction.risk_score * 150.50 :=
  C1_derived_feature_formulas.2.2 exampleTransaction (by norm_num [exampleTransaction])
    (by norm_num [exampleTransaction]) (by norm_num [exampleTransaction]) rfl

/-- Evaluation of the per-record pipeline on a constant classifier stub. -/
lemma processRecord_constModel (p : ℚ) (c : ℤ) (fn : List String) (h mo : ℤ)
    (rt : ℚ) (t : TransactionRequest) :
    processRecord (constModel p c) fn h mo rt t =
      .ok { fraud_probability := p, is_fraud := c == 1
            confidence := confidence p, response_time_ms := rt } := rfl

/-- Concrete confidence value at probability 3/10. -/
lemma confidence_three_tenths : confidence (3/10) = 2/5 := by
  rw [confidence, show (3:ℚ)/10 - 1/2 = -(1/5) by norm_num, abs_neg,
    abs_of_nonneg (by norm_num : (0:ℚ) ≤ 1/5)]
  norm_num

/-- C2: every prediction produced by the per-record pipeline (shared by the
single and batch handlers) satisfies `confidence = |p - 0.5| * 2`;
consequently confidence is 0 at p = 0.5, 1 at p ∈ {0, 1}, and lies in [0, 1]
whenever p does. -/
theorem C2_confidence_formula :
    (∀ (m : ClassifierModel) (fn : List String) (h mo : ℤ) (rt : ℚ)
        (t : TransactionRequest) (r : PredictionResponse),
      processRecord m fn h mo rt t = .ok r →
      r.confidence = |r.fraud_probability - 1/2| * 2) ∧
    confidence (1/2) = 0 ∧ confidence 0 = 1 ∧ confidence 1 = 1 ∧
    (∀ p : ℚ, 0 ≤ p → p ≤ 1 → 0 ≤ confidence p ∧ confidence p ≤ 1) := by
  refine ⟨?_, by simp [confidence], ?_, ?_, ?_⟩
  case refine_2 =>
    rw [confidence, zero_sub, abs_neg, abs_of_nonneg (by norm_num : (0:ℚ) ≤ 1/2)]
    norm_num
  case refine_3 =>
    rw [confidence, show (1:ℚ) - 1/2 = 1/2 by norm_num,
      abs_of_nonneg (by norm_num : (0:ℚ) ≤ 1/2)]
    norm_num
  · intro m fn h mo rt t r hr
    unfold processRecord at hr
    split at hr
    · exact Except.noConfusion hr
    · split at hr
      · exact Except.noConfusion hr
      · simp only [Except.ok.injEq] at hr
        subst hr
        simp [confidence]
  · intro p hp0 hp1
    unfold confidence
    have h1 : |p - 1/2| ≤ 1/2 := by rw [abs_le]; constructor <;> linarith
    have h2 : (0 : ℚ) ≤ |p - 1/2| := abs_nonneg _
    constructor <;> linarith

/-- Concrete instantiation of `C2_confidence_formula` at a stub classifier
returning p = 3/10. -/
theorem C2_confidence_formula_witness :
    examplePrediction.confidence = |examplePrediction.fraud_probability - 1/2| * 2 ∧
    0 ≤ confidence (3/10) ∧ confidence (3/10) ≤ 1 :=
  ⟨C2_confidence_formula.1 (constModel (3/10) 0) fallbackFeatureNames 12 6 1
      exampleTransaction examplePrediction
      (by rw [processRecord_constModel]; simp [examplePrediction, confidence_three_tenths]),
   (C2_confidence_formula.2.2.2.2 (3/10) (by norm_num) (by norm_num)).1,
   (C2_confidence_formula.2.2.2.2 (3/10) (by norm_num) (by norm_num)).2⟩

/-- The acceptance domain of the validator, spelled out field by field. -/
def ValidDomain (t : TransactionRequest) : Prop :=
  0 < t.transaction_amount ∧ 0 ≤ t.account_balance ∧
  (t.ip_address_flag = 0 ∨ t.ip_address_flag = 1) ∧
  0 ≤ t.previous_fraudulent_activity ∧ 0 ≤ t.daily_transaction_count ∧
  0 ≤ t.avg_transaction_amount_7d ∧ 0 ≤ t.failed_transaction_count_7d ∧
  0 ≤ t.card_age ∧ 0 ≤ t.transaction_distance ∧
  0 ≤ t.risk_score ∧ t.risk_score ≤ 1 ∧
  (t.is_weekend = 0 ∨ t.is_weekend = 1) ∧
  t.transaction_type ∈ allowedTransactionTypes ∧
  t.device_type ∈ allowedDeviceTypes ∧
  t.authentication_method ∈ allowedAuthMethods ∧
  t.card_type ∈ allowedCardTypes

set_option maxHeartbeats 1600000 in
/-- The validator accepts exactly the records inside `ValidDomain`. -/
lemma validateTransaction_ok_iff (t : TransactionRequest) :
    validateTransaction t = .ok t ↔ ValidDomain t := by
  unfold validateTransaction ValidDomain
  by_cases h1 : 0 < t.transaction_amount
  case neg =>
    rw [if_pos h1]
    exact iff_of_false (fun h => Except.noConfusion h) (fun hc => h1 hc.1)
  rw [if_neg (not_not_intro h1)]
  by_cases h2 : 0 ≤ t.account_balance
  case neg =>
    rw [if_pos h2]
    exact iff_of_false (fun h => Except.noConfusion h) (fun hc => h2 hc.2.1)
  rw [if_neg (not_not_intro h2)]
  by_cases h3 : 0 ≤ t.ip_address_flag ∧ t.ip_address_flag ≤ 1
  case neg =>
    rw [if_pos h3]
    refine iff_of_false (fun h => Except.noConfusion h) (fun hc => ?_)
    have c3 := hc.2.2.1
    omega
  rw [if_neg (not_not_intro h3)]
  by_cases h4 : 0 ≤ t.previous_fraudulent_activity
  case neg =>
    rw [if_pos h4]
    exact iff_of_false (fun h => Except.noConfusion h) (fun hc => h4 hc.2.2.2.1)
  rw [if_neg (not_not_intro h4)]
  by_cases h5 : 0 ≤ t.daily_transaction_count
  case neg =>
    rw [if_pos h5]
    exact iff_of_false (fun h => Except.noConfusion h) (fun hc => h5 hc.2.2.2.2.1)
  rw [if_neg (not_not_intro h5)]
  by_cases h6 : 0 ≤ t.avg_transaction_amount_7d
  case neg =>
    rw [if_pos h6]
    exact iff_of_false (fun h => Except.noConfusion h) (fun hc => h6 hc.2.2.2.2.2.1)
  rw [if_neg (not_not_intro h6)]
  by_cases h7 : 0 ≤ t.failed_transaction_count_7d
  case neg =>
    rw [if_pos h7]
    exact iff_of_false (fun h => Except.noConfusion h) (fun hc => h7 hc.2.2.2.2.2.2.1)
  rw [if_neg (not_not_intro h7)]
  by_cases h8 : 0 ≤ t.card_age
  case neg =>
    rw [if_pos h8]
    exact iff_of_false (fun h => Except.noConfusion h) (fun hc => h8 hc.2.2.2.2.2.2.2.1)
  rw [if_neg (not_not_intro h8)]
  by_cases h9 : 0 ≤ t.transaction_distance
  case neg =>
    rw [if_pos h9]
    exact iff_of_false (fun h => Except.noConfusion h) (fun hc => h9 hc.2.2.2.2.2.2.2.2.1)
  rw [if_neg (not_not_intro h9)]
  by_cases h10 : 0 ≤ t.risk_score ∧ t.risk_score ≤ 1
  case neg =>
    rw [if_pos h10]
    exact iff_of_false (fun h => Except.noConfusion h)
      (fun hc => h10 ⟨hc.2.2.2.2.2.2.2.2.2.1, hc.2.2.2.2.2.2.2.2.2.2.1⟩)
  rw [if_neg (not_not_intro h10)]
  by_cases h11 : 0 ≤ t.is_weekend ∧ t.is_weekend ≤ 1
  case neg =>
    rw [if_pos h11]
    refine iff_of_false (fun h => Except.noConfusion h) (fun hc => ?_)
    have c11 := hc.2.2.2.2.2.2.2.2.2.2.2.1
    omega
  rw [if_neg (not_not_intro h11)]
  by_cases h12 : t.transaction_type ∈ allowedTransactionTypes
  case neg =>
    rw [if_pos h12]
    exact iff_of_false (fun h => Except.noConfusion h)
      (fun hc => h12 hc.2.2.2.2.2.2.2.2.2.2.2.2.1)
  rw [if_neg (not_not_intro h12)]
  by_cases h13 : t.device_type ∈ allowedDeviceTypes
  case neg =>
    rw [if_pos h13]
    exact iff_of_false (fun h => Except.noConfusion h)
      (fun hc => h13 hc.2.2.2.2.2.2.2.2.2.2.2.2.2.1)
  rw [if_neg (not_not_intro h13)]
  by_cases h14 : t.authentication_method ∈ allowedAuthMethods
  case neg =>
    rw [if_pos h14]
    exact iff_of_false (fun h => Except.noConfusion h)
      (fun hc => h14 hc.2.2.2.2.2.2.2.2.2.2.2.2.2.2.1)
  rw [if_neg (not_not_intro h14)]
  by_cases h15 : t.card_type ∈ allowedCardTypes
  case neg =>
    rw [if_pos h15]
    exact iff_of_false (fun h => Except.noConfusion h)
      (fun hc => h15 hc.2.2.2.2.2.2.2.2.2.2.2.2.2.2.2)
  rw [if_neg (not_not_intro h15)]
  exact iff_of_true rfl
    ⟨h1, h2, by omega, h4, h5, h6, h7, h8, h9, h10.1, h10.2, by omega, h12, h13, h14, h15⟩

set_option maxHeartbeats 800000 in
/-- The spec's invalid-amount scenario record is rejected naming its field. -/
lemma validate_invalid_amount :
    validateTransaction invalidAmountTransaction = .error "transaction_amount" := by
  norm_num [validateTransaction, invalidAmountTransaction, exampleTransaction]

set_option maxHeartbeats 800000 in
/-- The spec's invalid-risk-score scenario record is rejected naming its field. -/
lemma validate_invalid_risk :
    validateTransaction { exampleTransaction with risk_score := 1.5 } = .error "risk_score" := by
  norm_num [validateTransaction, exampleTransaction]

set_option maxHeartbeats 800000 in
/-- The spec's invalid-ip-flag scenario record is rejected naming its field. -/
lemma validate_invalid_ip_flag :
    validateTransaction { exampleTransaction with ip_address_flag := 2 } =
      .error "ip_address_flag" := by
  norm_num [validateTransaction, exampleTransaction]

/-- C3: the validator accepts a record exactly when every field is within its
declared domain (`ValidDomain`: amount > 0, balance ≥ 0, flags in {0,1},
counts ≥ 0, card_age ≥ 0, risk_score in [0,1], categorical fields in their
enumerations); a validation failure surfaces to the caller as the 422
validation outcome naming the offending field (never a server fault), and in
particular the scenario records with amount −100, risk_score 1.5 and
ip_address_flag 2 are each rejected naming that field.  The inbound schema of
src/app.py has no hour or month fields, so no bounds on them participate. -/
theorem C3_validator_domains :
    (∀ t : TransactionRequest, validateTransaction t = .ok t ↔ ValidDomain t) ∧
    (∀ (lm : Option ClassifierModel) (fn : List String) (h mo : ℤ) (e : ℚ)
        (t : TransactionRequest) (f : String),
      validateTransaction t = .error f → predictRoute lm fn h mo e t = .validationError f) ∧
    validateTransaction invalidAmountTransaction = .error "transaction_amount" ∧
    validateTransaction { exampleTransaction with risk_score := 1.5 } = .error "risk_score" ∧
    validateTransaction { exampleTransaction with ip_address_flag := 2 } = .error "ip_address_flag" := by
  refine ⟨validateTransaction_ok_iff, ?_, validate_invalid_amount, validate_invalid_risk,
    validate_invalid_ip_flag⟩
  intro lm fn h mo e t f hv
  unfold predictRoute
  rw [hv]

/-- Concrete instantiation of `C3_validator_domains`: the documented example
record is accepted, and the invalid-amount scenario record surfaces as a 422
naming `transaction_amount` even through the route. -/
theorem C3_validator_domains_witness :
    validateTransaction exampleTransaction = .ok exampleTransaction ∧
    predictRoute none fallbackFeatureNames 12 6 0 invalidAmountTransaction =
      .validationError "transaction_amount" :=
  ⟨(C3_validator_domains.1 exampleTransaction).2
      (by norm_num [ValidDomain, exampleTransaction, allowedTransactionTypes,
        allowedDeviceTypes, allowedAuthMethods, allowedCardTypes]),
   C3_validator_domains.2.1 none fallbackFeatureNames 12 6 0 invalidAmountTransaction
      "transaction_amount" C3_validator_domains.2.2.1⟩

/-- Modelled from the spec: the repository's reduced-schema app variant
(spec §3 and §4.2) accepts optional `hour` and `month` fields and optional
caller-supplied values for the four derived features; that variant is not
among the source files here, so its optional inputs are modelled as this
record of optional values, `none` meaning "not supplied by the caller". -/
structure CallerOverrides where
  hour : Option ℤ
  month : Option ℤ
  high_failure_flag : Option ℤ
  failure_rate : Option ℚ
  amount_deviation : Option ℚ
  risk_amount_interaction : Option ℚ
deriving DecidableEq, Repr

/-- Modelled from the spec: feature derivation of the reduced-schema variant.
Per spec §4.2 each derived quantity is "overridable by an explicit
caller-supplied value", and "hour, month default to the current wall-clock
hour/month if not supplied by the caller"; otherwise the slots and formulas
are those of `featureDict`. -/
def featureDictWithOverrides (wallHour wallMonth : ℤ) (ov : CallerOverrides)
    (t : TransactionRequest) : List (String × ℚ) :=
  [("Failed_Transaction_Count_7d", t.failed_transaction_count_7d),
   ("Risk_Score", t.risk_score),
   ("High_Failure_Flag", ((ov.high_failure_flag.getD (highFailureFlag t) : ℤ) : ℚ)),
   ("Transaction_Amount", t.transaction_amount),
   ("Avg_Transaction_Amount_7d", t.avg_transaction_amount_7d),
   ("Risk_Amount_Interaction", ov.risk_amount_interaction.getD (riskAmountInteraction t)),
   ("Amount_Deviation", ov.amount_deviation.getD (amountDeviation t)),
   ("Failure_Rate", ov.failure_rate.getD (failureRate t)),
   ("Hour", ((ov.hour.getD wallHour : ℤ) : ℚ)),
   ("Card_Age", (t.card_age : ℚ)),
   ("Month", ((ov.month.getD wallMonth : ℤ) : ℚ))]

/-- A concrete override record: hour, high_failure_flag and amount_deviation
supplied by the caller, the rest left to their defaults. -/
def exampleOverrides : CallerOverrides :=
  { hour := some 7, month := none, high_failure_flag := some 1
    failure_rate := none, amount_deviation := some 5, risk_amount_interaction := none }

/-- C4: a caller-supplied hour or month is used in the feature vector and the
wall-clock value is used only when none is supplied; likewise a
caller-supplied value for any derived slot (high_failure_flag, failure_rate,
amount_deviation, risk_amount_interaction) overrides the computed value. -/
theorem C4_caller_override_precedence :
    ∀ (wallHour wallMonth : ℤ) (ov : CallerOverrides) (t : TransactionRequest),
      (∀ v, ov.hour = some v →
        (featureDictWithOverrides wallHour wallMonth ov t).lookup "Hour" = some ((v : ℤ) : ℚ)) ∧
      (ov.hour = none →
        (featureDictWithOverrides wallHour wallMonth ov t).lookup "Hour" = some ((wallHour : ℤ) : ℚ)) ∧
      (∀ v, ov.month = some v →
        (featureDictWithOverrides wallHour wallMonth ov t).lookup "Month" = some ((v : ℤ) : ℚ)) ∧
      (ov.month = none →
        (featureDictWithOverrides wallHour wallMonth ov t).lookup "Month" = some ((wallMonth : ℤ) : ℚ)) ∧
      (∀ v, ov.high_failure_flag = some v →
        (featureDictWithOverrides wallHour wallMonth ov t).lookup "High_Failure_Flag" = some ((v : ℤ) : ℚ)) ∧
      (ov.high_failure_flag = none →
        (featureDictWithOverrides wallHour wallMonth ov t).lookup "High_Failure_Flag" = some ((highFailureFlag t : ℤ) : ℚ)) ∧
      (∀ v, ov.failure_rate = some v →
        (featureDictWithOverrides wallHour wallMonth ov t).lookup "Failure_Rate" = some v) ∧
      (ov.failure_rate = none →
        (featureDictWithOverrides wallHour wallMonth ov t).lookup "Failure_Rate" = some (failureRate t)) ∧
      (∀ v, ov.amount_deviation = some v →
        (featureDictWithOverrides wallHour wallMonth ov t).lookup "Amount_Deviation" = some v) ∧
      (ov.amount_deviation = none →
        (featureDictWithOverrides wallHour wallMonth ov t).lookup "Amount_Deviation" = some (amountDeviation t)) ∧
      (∀ v, ov.risk_amount_interaction = some v →
        (featureDictWithOverrides wallHour wallMonth ov t).lookup "Risk_Amount_Interaction" = some v) ∧
      (ov.risk_amount_interaction = none →
        (featureDictWithOverrides wallHour wallMonth ov t).lookup "Risk_Amount_Interaction" = some (riskAmountInteraction t)) := by
  intro wallHour wallMonth ov t
  refine ⟨?_, ?_, ?_, ?_, ?_, ?_, ?_, ?_, ?_, ?_, ?_, ?_⟩ <;>
    first
    | (intro v hv
       simp only [featureDictWithOverrides, hv]
       rfl)
    | (intro hv
       simp only [featureDictWithOverrides, hv]
       rfl)

/-- Concrete instantiation of `C4_caller_override_precedence` at
`exampleOverrides`: the supplied hour and amount_deviation win, while the
unsupplied month and failure_rate fall back to the wall clock and the
computed value. -/
theorem C4_caller_override_precedence_witness :
    (featureDictWithOverrides 12 6 exampleOverrides exampleTransaction).lookup "Hour" =
      some (((7 : ℤ) : ℤ) : ℚ) ∧
    (featureDictWithOverrides 12 6 exampleOverrides exampleTransaction).lookup "Month" =
      some (((6 : ℤ) : ℤ) : ℚ) ∧
    (featureDictWithOverrides 12 6 exampleOverrides exampleTransaction).lookup "Amount_Deviation" =
      some 5 ∧
    (featureDictWithOverrides 12 6 exampleOverrides exampleTransaction).lookup "Failure_Rate" =
      some (failureRate exampleTransaction) :=
  ⟨(C4_caller_override_precedence 12 6 exampleOverrides exampleTransaction).1 7 rfl,
   (C4_caller_override_precedence 12 6 exampleOverrides exampleTransaction).2.2.2.1 rfl,
   (C4_caller_override_precedence 12 6 exampleOverrides exampleTransaction).2.2.2.2.2.2.2.2.1 5 rfl,
   (C4_caller_override_precedence 12 6 exampleOverrides exampleTransaction).2.2.2.2.2.2.2.1 rfl⟩

/-- C5 counterexample: with no model loaded, a request whose body fails
validation (the spec's `transaction_amount = -100` scenario record) is
rejected with the 422 validation outcome, not the 503 service-unavailable
outcome the claim predicts: the HTTP layer validates the body before the
handler's empty-ModelHandle check can run. -/
theorem C5_counterexample_validation_wins :
    predictRoute none fallbackFeatureNames 12 6 0 invalidAmountTransaction =
      .validationError "transaction_amount" ∧
    predictRoute none fallbackFeatureNames 12 6 0 invalidAmountTransaction ≠
      .serviceUnavailable := by
  constructor
  · unfold predictRoute
    rw [validate_invalid_amount]
  · unfold predictRoute
    rw [validate_invalid_amount]
    exact fun h => ApiOutcome.noConfusion h

/-- C5 (amended): body validation happens in the routing layer before the
handler, so a request that fails validation yields the 422 validation error
even when no model is loaded; the empty-ModelHandle 503 check governs
validated requests, ahead of feature derivation and classification. -/
theorem C5_model_check_after_validation :
    (∀ (lm : Option ClassifierModel) (fn : List String) (h mo : ℤ) (e : ℚ)
        (t : TransactionRequest) (f : String),
      validateTransaction t = .error f →
      predictRoute lm fn h mo e t = .validationError f) ∧
    (∀ (fn : List String) (h mo : ℤ) (e : ℚ) (t : TransactionRequest),
      validateTransaction t = .ok t →
      predictRoute none fn h mo e t = .serviceUnavailable) := by
  constructor
  · intro lm fn h mo e t f hv
    unfold predictRoute
    rw [hv]
  · intro fn h mo e t hv
    unfold predictRoute
    rw [hv]

/-- Concrete instantiation of `C5_model_check_after_validation`: the
invalid-amount record gets 422 even with no model; the valid example record
gets 503 when no model is loaded. -/
theorem C5_model_check_after_validation_witness :
    predictRoute none fallbackFeatureNames 12 6 0 invalidAmountTransaction =
      .validationError "transaction_amount" ∧
    predictRoute none fallbackFeatureNames 12 6 0 exampleTransaction =
      .serviceUnavailable :=
  ⟨C5_model_check_after_validation.1 none fallbackFeatureNames 12 6 0
      invalidAmountTransaction "transaction_amount" validate_invalid_amount,
   C5_model_check_after_validation.2 fallbackFeatureNames 12 6 0 exampleTransaction
      ((validateTransaction_ok_iff exampleTransaction).2
        (by norm_num [ValidDomain, exampleTransaction, allowedTransactionTypes,
          allowedDeviceTypes, allowedAuthMethods, allowedCardTypes]))⟩

/-- A successful per-record pipeline run reports the `response_time_ms` it
was given (0 for batch items). -/
lemma processRecord_ok_rt (m : ClassifierModel) (fn : List String) (h mo : ℤ)
    (rt : ℚ) (t : TransactionRequest) (r : PredictionResponse) :
    processRecord m fn h mo rt t = .ok r → r.response_time_ms = rt := by
  intro hr
  unfold processRecord at hr
  split at hr
  · exact Except.noConfusion hr
  · split at hr
    · exact Except.noConfusion hr
    · simp only [Except.ok.injEq] at hr
      subst hr
      rfl

/-- A successful batch loop yields one prediction per input record. -/
lemma batchLoop_ok_length (p : TransactionRequest → Except String PredictionResponse) :
    ∀ (ts : List TransactionRequest) (preds : List PredictionResponse) (c : ℕ),
      batchLoop p ts = .ok (preds, c) → preds.length = ts.length := by
  intro ts
  induction ts with
  | nil =>
    intro preds c h
    simp only [batchLoop, Except.ok.injEq, Prod.mk.injEq] at h
    rw [← h.1]
    rfl
  | cons t rest ih =>
    intro preds c h
    simp only [batchLoop] at h
    cases hp : p t with
    | error e => rw [hp] at h; exact Except.noConfusion h
    | ok r =>
      rw [hp] at h
      cases hl : batchLoop p rest with
      | error e => rw [hl] at h; exact Except.noConfusion h
      | ok pc =>
        rw [hl] at h
        obtain ⟨rs, c0⟩ := pc
        simp only [Except.ok.injEq, Prod.mk.injEq] at h
        rw [← h.1]
        simp [ih rs c0 hl]

/-- The running fraud counter of a successful batch loop equals the number of
fraud-flagged predictions. -/
lemma batchLoop_ok_count (p : TransactionRequest → Except String PredictionResponse) :
    ∀ (ts : List TransactionRequest) (preds : List PredictionResponse) (c : ℕ),
      batchLoop p ts = .ok (preds, c) →
      c = (preds.filter (fun r => r.is_fraud)).length := by
  intro ts
  induction ts with
  | nil =>
    intro preds c h
    simp only [batchLoop, Except.ok.injEq, Prod.mk.injEq] at h
    rw [← h.1, ← h.2]
    rfl
  | cons t rest ih =>
    intro preds c h
    simp only [batchLoop] at h
    cases hp : p t with
    | error e => rw [hp] at h; exact Except.noConfusion h
    | ok r =>
      rw [hp] at h
      cases hl : batchLoop p rest with
      | error e => rw [hl] at h; exact Except.noConfusion h
      | ok pc =>
        rw [hl] at h
        obtain ⟨rs, c0⟩ := pc
        simp only [Except.ok.injEq, Prod.mk.injEq] at h
        rw [← h.1, ← h.2]
        cases hf : r.is_fraud <;>
          simp [List.filter_cons, hf, ← ih rs c0 hl, Nat.add_comm]

/-- A successful batch loop relates inputs to outputs pointwise, in order. -/
lemma batchLoop_ok_forall₂ (p : TransactionRequest → Except String PredictionResponse) :
    ∀ (ts : List TransactionRequest) (preds : List PredictionResponse) (c : ℕ),
      batchLoop p ts = .ok (preds, c) →
      List.Forall₂ (fun t r => p t = .ok r) ts preds := by
  intro ts
  induction ts with
  | nil =>
    intro preds c h
    simp only [batchLoop, Except.ok.injEq, Prod.mk.injEq] at h
    rw [← h.1]
    exact List.Forall₂.nil
  | cons t rest ih =>
    intro preds c h
    simp only [batchLoop] at h
    cases hp : p t with
    | error e => rw [hp] at h; exact Except.noConfusion h
    | ok r =>
      rw [hp] at h
      cases hl : batchLoop p rest with
      | error e => rw [hl] at h; exact Except.noConfusion h
      | ok pc =>
        rw [hl] at h
        obtain ⟨rs, c0⟩ := pc
        simp only [Except.ok.injEq, Prod.mk.injEq] at h
        rw [← h.1]
        exact List.Forall₂.cons hp (ih rs c0 hl)

/-- Every prediction of a successful batch loop comes from some input record. -/
lemma batchLoop_ok_mem (p : TransactionRequest → Except String PredictionResponse) :
    ∀ (ts : List TransactionRequest) (preds : List PredictionResponse) (c : ℕ),
      batchLoop p ts = .ok (preds, c) →
      ∀ r ∈ preds, ∃ t ∈ ts, p t = .ok r := by
  intro ts
  induction ts with
  | nil =>
    intro preds c h
    simp only [batchLoop, Except.ok.injEq, Prod.mk.injEq] at h
    rw [← h.1]
    intro r hr
    exact absurd hr (List.not_mem_nil r)
  | cons t rest ih =>
    intro preds c h
    simp only [batchLoop] at h
    cases hp : p t with
    | error e => rw [hp] at h; exact Except.noConfusion h
    | ok r =>
      rw [hp] at h
      cases hl : batchLoop p rest with
      | error e => rw [hl] at h; exact Except.noConfusion h
      | ok pc =>
        rw [hl] at h
        obtain ⟨rs, c0⟩ := pc
        simp only [Except.ok.injEq, Prod.mk.injEq] at h
        rw [← h.1]
        intro r' hr'
        rcases List.mem_cons.mp hr' with hEq | hmem
        · exact ⟨t, List.mem_cons_self t rest, hEq ▸ hp⟩
        · obtain ⟨t', ht', hpt'⟩ := ih rs c0 hl r' hmem
          exact ⟨t', List.mem_cons_of_mem t ht', hpt'⟩

/-- The first failing record aborts the batch loop with its error, however
many records before it succeeded. -/
lemma batchLoop_append_error (p : TransactionRequest → Except String PredictionResponse) :
    ∀ (pre : List TransactionRequest) (t : TransactionRequest)
      (post : List TransactionRequest) (err : String),
      (∀ t' ∈ pre, ∃ r, p t' = .ok r) → p t = .error err →
      batchLoop p (pre ++ t :: post) = .error err := by
  intro pre
  induction pre with
  | nil =>
    intro t post err _ hfail
    simp only [List.nil_append, batchLoop, hfail]
  | cons a pre ih =>
    intro t post err hpre hfail
    obtain ⟨r, hr⟩ := hpre a (List.mem_cons_self a pre)
    have hrest := ih t post err (fun t' ht' => hpre t' (List.mem_cons_of_mem a ht')) hfail
    simp only [List.cons_append, batchLoop, hr, List.append_eq, hrest]

/-- Batch validation of `n` copies of an individually valid record succeeds. -/
lemma validateTransactions_replicate {t : TransactionRequest}
    (hv : validateTransaction t = .ok t) :
    ∀ n, validateTransactions (List.replicate n t) = .ok () := by
  intro n
  induction n with
  | zero => rfl
  | succ k ih => simp only [List.replicate_succ, validateTransactions, hv, ih]

/-- The batch loop over `n` copies of a record whose processing succeeds with
a non-fraud prediction yields `n` copies of that prediction and count 0. -/
lemma batchLoop_replicate_ok {p : TransactionRequest → Except String PredictionResponse}
    {t : TransactionRequest} {r : PredictionResponse}
    (hr : p t = .ok r) (hf : r.is_fraud = false) :
    ∀ n, batchLoop p (List.replicate n t) = .ok (List.replicate n r, 0) := by
  intro n
  induction n with
  | zero => rfl
  | succ k ih =>
    simp only [List.replicate_succ, batchLoop, hr, ih, hf]
    simp

/-- Under the fallback 17-name ordering, the preprocessed frame is the
17 expected columns in order: the five that overlap the derived slots carry
the record's values, every other column is the 0.0 default. -/
lemma preprocess_fallback_eval (h mo : ℤ) (t : TransactionRequest) :
    (preprocessTransaction fallbackFeatureNames h mo t).1 =
      [("Transaction_Amount", t.transaction_amount),
       ("Account_Balance", 0),
       ("Previous_Fraudulent_Activity", 0),
       ("Daily_Transaction_Count", 0),
       ("Avg_Transaction_Amount_7d", t.avg_transaction_amount_7d),
       ("Failed_Transaction_Count_7d", t.failed_transaction_count_7d),
       ("Card_Age", (t.card_age : ℚ)),
       ("Transaction_Distance", 0),
       ("Risk_Score", t.risk_score),
       ("Is_Weekend", 0),
       ("Transaction_Type", 0), ("Device_Type", 0), ("Location", 0),
       ("Merchant_Category", 0), ("IP_Address_Flag", 0), ("Card_Type", 0),
       ("Authentication_Method", 0)] := rfl

/-- The example record is accepted by the validator. -/
lemma exampleTransaction_valid :
    validateTransaction exampleTransaction = .ok exampleTransaction :=
  (validateTransaction_ok_iff exampleTransaction).2
    (by norm_num [ValidDomain, exampleTransaction, allowedTransactionTypes,
      allowedDeviceTypes, allowedAuthMethods, allowedCardTypes])

/-- Processing the example record with the constant stub yields the non-fraud
batch prediction (per-item time 0). -/
lemma processRecord_example :
    processRecord (constModel (3/10) 0) fallbackFeatureNames 12 6 0 exampleTransaction =
      .ok batchPrediction := by
  rw [processRecord_constModel]
  simp [batchPrediction, confidence_three_tenths]

/-- C6: the batch operation accepts a batch of exactly 100 records and
processes all of them (one prediction per record), while a batch of 101
records is rejected up front by the body validator with the 422 client error,
before any prediction is computed. -/
theorem C6_batch_size_boundary :
    (∀ (lm : Option ClassifierModel) (fn : List String) (h mo : ℤ) (e : ℚ)
        (ts : List TransactionRequest),
      ts.length = 101 → batchRoute lm fn h mo e ts = .validationError "transactions") ∧
    (∀ (m : ClassifierModel) (fn : List String) (h mo : ℤ) (e : ℚ)
        (ts : List TransactionRequest) (preds : List PredictionResponse) (c : ℕ),
      ts.length = 100 → validateTransactions ts = .ok () →
      batchLoop (processRecord m fn h mo 0) ts = .ok (preds, c) →
      batchRoute (some m) fn h mo e ts =
        .ok { predictions := preds, total_transactions := preds.length
              total_fraud_detected := c, response_time_ms := e } ∧
      preds.length = 100) := by
  constructor
  · intro lm fn h mo e ts hlen
    unfold batchRoute
    rw [if_pos (by omega)]
  · intro m fn h mo e ts preds c hlen hv hloop
    have hplen : preds.length = ts.length := batchLoop_ok_length _ ts preds c hloop
    constructor
    · simp only [batchRoute, batchHandler, hlen, hv, hloop]
      rw [if_neg (Nat.lt_irrefl 100), if_neg (Nat.lt_irrefl 100)]
    · omega

/-- Concrete instantiation of `C6_batch_size_boundary`: 101 copies of the
example record are rejected; 100 copies are accepted and all 100 processed. -/
theorem C6_batch_size_boundary_witness :
    batchRoute none fallbackFeatureNames 12 6 0 (List.replicate 101 exampleTransaction) =
      .validationError "transactions" ∧
    batchRoute (some (constModel (3/10) 0)) fallbackFeatureNames 12 6 1
        (List.replicate 100 exampleTransaction) =
      .ok { predictions := List.replicate 100 batchPrediction, total_transactions := 100
            total_fraud_detected := 0, response_time_ms := 1 } := by
  constructor
  · exact C6_batch_size_boundary.1 none fallbackFeatureNames 12 6 0 _ (by simp)
  · have h := C6_batch_size_boundary.2 (constModel (3/10) 0) fallbackFeatureNames 12 6 1
      (List.replicate 100 exampleTransaction) (List.replicate 100 batchPrediction) 0
      (by simp) (validateTransactions_replicate exampleTransaction_valid 100)
      (batchLoop_replicate_ok processRecord_example rfl 100)
    have hlen : (List.replicate 100 batchPrediction).length = 100 := by simp
    have h1 := h.1
    rw [hlen] at h1
    exact h1

/-- C7: for every accepted batch the handler returns one prediction per input
record in input order, `total_transactions` equal to the number of results,
`total_fraud_detected` equal to the number of fraud-flagged results, each
item's `response_time_ms` equal to 0, and the single aggregate elapsed time
for the whole batch; in particular 3 identical valid records give 3 results. -/
theorem C7_batch_aggregation :
    ∀ (m : ClassifierModel) (fn : List String) (h mo : ℤ) (e : ℚ)
      (ts : List TransactionRequest) (preds : List PredictionResponse) (c : ℕ),
      batchLoop (processRecord m fn h mo 0) ts = .ok (preds, c) →
      batchHandler m fn h mo e ts =
        .ok { predictions := preds, total_transactions := preds.length
              total_fraud_detected := c, response_time_ms := e } ∧
      List.Forall₂ (fun t r => processRecord m fn h mo 0 t = .ok r) ts preds ∧
      preds.length = ts.length ∧
      c = (preds.filter (fun r => r.is_fraud)).length ∧
      (∀ r ∈ preds, r.response_time_ms = 0) := by
  intro m fn h mo e ts preds c hloop
  refine ⟨?_, batchLoop_ok_forall₂ _ ts preds c hloop, batchLoop_ok_length _ ts preds c hloop,
    batchLoop_ok_count _ ts preds c hloop, ?_⟩
  · unfold batchHandler
    rw [hloop]
  · intro r hr
    obtain ⟨t', _, hpt'⟩ := batchLoop_ok_mem _ ts preds c hloop r hr
    exact processRecord_ok_rt m fn h mo 0 t' r hpt'

/-- Concrete instantiation of `C7_batch_aggregation`: a batch of 3 identical
valid records yields 3 predictions, `total_transactions = 3`, no fraud. -/
theorem C7_batch_aggregation_witness :
    batchHandler (constModel (3/10) 0) fallbackFeatureNames 12 6 1
        (List.replicate 3 exampleTransaction) =
      .ok { predictions := List.replicate 3 batchPrediction, total_transactions := 3
            total_fraud_detected := 0, response_time_ms := 1 } ∧
    (List.replicate 3 batchPrediction).length = 3 := by
  have h := C7_batch_aggregation (constModel (3/10) 0) fallbackFeatureNames 12 6 1
    (List.replicate 3 exampleTransaction) (List.replicate 3 batchPrediction) 0
    (batchLoop_replicate_ok processRecord_example rfl 3)
  have hlen : (List.replicate 3 batchPrediction).length = 3 := by simp
  have h1 := h.1
  rw [hlen] at h1
  exact ⟨h1, hlen⟩

/-- The scenario record the stub classifier `mixedModel` raises on. -/
def bigTransaction : TransactionRequest :=
  { exampleTransaction with transaction_amount := 999 }

/-- `mixedModel` processes the example record successfully. -/
lemma processRecord_mixedModel_example :
    processRecord mixedModel fallbackFeatureNames 12 6 0 exampleTransaction =
      .ok batchPrediction := by
  have hlook : (preprocessTransaction fallbackFeatureNames 12 6 exampleTransaction).1.lookup
      "Transaction_Amount" = some exampleTransaction.transaction_amount := rfl
  simp only [processRecord, mixedModel, hlook]
  rw [if_neg (by norm_num [exampleTransaction])]
  simp [batchPrediction, confidence_three_tenths]

/-- `mixedModel` raises on the 999-amount record. -/
lemma processRecord_mixedModel_big :
    processRecord mixedModel fallbackFeatureNames 12 6 0 bigTransaction = .error "boom" := by
  have hlook : (preprocessTransaction fallbackFeatureNames 12 6 bigTransaction).1.lookup
      "Transaction_Amount" = some bigTransaction.transaction_amount := rfl
  simp only [processRecord, mixedModel, hlook]
  rw [if_pos (show some bigTransaction.transaction_amount = some (999 : ℚ) from rfl)]

/-- C8: if processing any single record of an accepted batch fails, the whole
batch aborts with the server error wrapping the underlying message, and no
partial results are returned no matter how many earlier records succeeded. -/
theorem C8_batch_all_or_nothing :
    ∀ (m : ClassifierModel) (fn : List String) (h mo : ℤ) (e : ℚ)
      (pre : List TransactionRequest) (t : TransactionRequest)
      (post : List TransactionRequest) (err : String),
      (∀ t' ∈ pre, ∃ r, processRecord m fn h mo 0 t' = .ok r) →
      processRecord m fn h mo 0 t = .error err →
      batchHandler m fn h mo e (pre ++ t :: post) =
        .serverError ("Batch prediction failed: " ++ err) := by
  intro m fn h mo e pre t post err hpre hfail
  unfold batchHandler
  rw [batchLoop_append_error _ pre t post err hpre hfail]

/-- Concrete instantiation of `C8_batch_all_or_nothing`: a batch whose first
record succeeds and whose second raises aborts wholesale with the wrapped
message, with no partial results. -/
theorem C8_batch_all_or_nothing_witness :
    batchHandler mixedModel fallbackFeatureNames 12 6 1
        ([exampleTransaction] ++ bigTransaction :: [exampleTransaction]) =
      .serverError ("Batch prediction failed: " ++ "boom") :=
  C8_batch_all_or_nothing mixedModel fallbackFeatureNames 12 6 1 [exampleTransaction]
    bigTransaction [exampleTransaction] "boom"
    (fun t' ht' => ⟨batchPrediction, by
      rw [List.mem_singleton.mp ht']
      exact processRecord_mixedModel_example⟩)
    processRecord_mixedModel_big

/-- Looking up a key of a key-tagging map returns the tagged value. -/
lemma lookup_map_self (g : String → ℚ) :
    ∀ (l : List String) (f : String), f ∈ l →
      (l.map (fun x => (x, g x))).lookup f = some (g f) := by
  intro l
  induction l with
  | nil => intro f hf; exact absurd hf (List.not_mem_nil f)
  | cons a l ih =>
    intro f hf
    by_cases hfa : f = a
    · subst hfa
      simp [List.lookup]
    · have hb : (f == a) = false := beq_eq_false_iff_ne.mpr hfa
      rcases List.mem_cons.mp hf with h | h
      · exact absurd h hfa
      · simp [List.lookup, hb, ih f h]

/-- Lookup skips a prefix none of whose keys match. -/
lemma lookup_append_right :
    ∀ (l₁ l₂ : List (String × ℚ)) (f : String), ¬ f ∈ l₁.map Prod.fst →
      (l₁ ++ l₂).lookup f = l₂.lookup f := by
  intro l₁
  induction l₁ with
  | nil => intro l₂ f _; rfl
  | cons a l ih =>
    intro l₂ f hf
    obtain ⟨k, v⟩ := a
    have hk : f ≠ k := by
      intro hEq
      exact hf (by simp [hEq])
    have hb : (f == k) = false := beq_eq_false_iff_ne.mpr hk
    simp only [List.cons_append, List.lookup, hb]
    exact ih l₂ f (fun hm => hf (by simp [List.map_cons]; exact Or.inr (by simpa using hm)))

/-- Membership in the missing-feature list, unfolded. -/
lemma mem_missingFeatures {fn cols : List String} {f : String} :
    f ∈ missingFeatures fn cols ↔ f ∈ fn ∧ ¬ f ∈ cols := by
  simp [missingFeatures]

/-- C9: for every record the derived frame contains every column the model
expects, reordered to the model's expected order; a model-expected column
absent from the eleven derived slots is filled with the neutral default 0.0
and reported in the non-fatal warning list (which is non-empty exactly when
some expected column is missing); the record is never rejected for a missing
feature. -/
theorem C9_missing_features_defaulted :
    ∀ (fn : List String) (h mo : ℤ) (t : TransactionRequest), fn ≠ [] →
      ((preprocessTransaction fn h mo t).1.map Prod.fst = fn) ∧
      (∀ f ∈ fn, ¬ f ∈ (featureDict h mo t).map Prod.fst →
        (preprocessTransaction fn h mo t).1.lookup f = some 0) ∧
      ((preprocessTransaction fn h mo t).2 =
        missingFeatures fn ((featureDict h mo t).map Prod.fst)) ∧
      ((preprocessTransaction fn h mo t).2 ≠ [] ↔
        ∃ f ∈ fn, ¬ f ∈ (featureDict h mo t).map Prod.fst) := by
  intro fn h mo t hfn
  unfold preprocessTransaction
  rw [if_neg hfn]
  dsimp only
  refine ⟨?_, ?_, rfl, ?_⟩
  · simp [List.map_map, Function.comp_def]
  · intro f hf hnotin
    have h1 : (padMissing fn (featureDict h mo t)).lookup f = some 0 := by
      unfold padMissing
      rw [lookup_append_right _ _ f hnotin]
      exact lookup_map_self (fun _ => (0 : ℚ)) _ f (mem_missingFeatures.mpr ⟨hf, hnotin⟩)
    rw [lookup_map_self
      (fun x => ((padMissing fn (featureDict h mo t)).lookup x).getD 0) fn f hf, h1]
    rfl
  · constructor
    · intro hne
      obtain ⟨f, hf⟩ := List.exists_mem_of_ne_nil _ hne
      exact ⟨f, (mem_missingFeatures.mp hf).1, (mem_missingFeatures.mp hf).2⟩
    · intro hx hnil
      obtain ⟨f, hf, hn⟩ := hx
      have hmem := mem_missingFeatures.mpr ⟨hf, hn⟩
      rw [hnil] at hmem
      exact absurd hmem (List.not_mem_nil f)

/-- Concrete instantiation of `C9_missing_features_defaulted` under the
fallback ordering: the frame's columns are exactly the 17 expected names, and
the expected column `Account_Balance`, absent from the derived slots, is
filled with 0. -/
theorem C9_missing_features_defaulted_witness :
    (preprocessTransaction fallbackFeatureNames 12 6 exampleTransaction).1.map Prod.fst =
      fallbackFeatureNames ∧
    (preprocessTransaction fallbackFeatureNames 12 6 exampleTransaction).1.lookup
      "Account_Balance" = some 0 := by
  have h := C9_missing_features_defaulted fallbackFeatureNames 12 6 exampleTransaction
    (by decide)
  exact ⟨h.1, h.2.1 "Account_Balance" (by decide) (by decide)⟩

/-- A record differing from the example only in fields the fallback frame
ignores (balance, distance, ip flag, weekend, device type). -/
def otherTransaction : TransactionRequest :=
  { exampleTransaction with
    account_balance := 123
    transaction_distance := 7
    ip_address_flag := 1
    device_type := "Laptop"
    is_weekend := 1 }

/-- C10: under the fallback 17-name ordering only Transaction_Amount,
Avg_Transaction_Amount_7d, Failed_Transaction_Count_7d, Card_Age and
Risk_Score carry record-derived data; the other twelve expected columns are
constantly 0.0, so two requests agreeing on those five fields — however they
differ in account_balance, transaction_distance, ip_address_flag, the
categorical fields, or even the wall-clock hour and month — produce identical
feature vectors. -/
theorem C10_fallback_only_five_columns :
    (∀ (t₁ t₂ : TransactionRequest) (h₁ m₁ h₂ m₂ : ℤ),
      t₁.transaction_amount = t₂.transaction_amount →
      t₁.avg_transaction_amount_7d = t₂.avg_transaction_amount_7d →
      t₁.failed_transaction_count_7d = t₂.failed_transaction_count_7d →
      t₁.card_age = t₂.card_age →
      t₁.risk_score = t₂.risk_score →
      (preprocessTransaction fallbackFeatureNames h₁ m₁ t₁).1 =
        (preprocessTransaction fallbackFeatureNames h₂ m₂ t₂).1) ∧
    (∀ (t : TransactionRequest) (h mo : ℤ),
      ∀ f ∈ (["Account_Balance", "Previous_Fraudulent_Activity",
              "Daily_Transaction_Count", "Transaction_Distance", "Is_Weekend",
              "Transaction_Type", "Device_Type", "Location", "Merchant_Category",
              "IP_Address_Flag", "Card_Type", "Authentication_Method"] : List String),
        (preprocessTransaction fallbackFeatureNames h mo t).1.lookup f = some 0) := by
  constructor
  · intro t₁ t₂ h₁ m₁ h₂ m₂ e1 e2 e3 e4 e5
    rw [preprocess_fallback_eval, preprocess_fallback_eval, e1, e2, e3, e4, e5]
  · intro t h mo f hf
    fin_cases hf <;> rfl

/-- Concrete instantiation of `C10_fallback_only_five_columns`: the example
record and a record differing in balance, distance, ip flag, weekend, device
type — preprocessed at different wall-clock hours and months — yield the same
frame, whose `Location` column is the constant 0. -/
theorem C10_fallback_only_five_columns_witness :
    (preprocessTransaction fallbackFeatureNames 12 6 exampleTransaction).1 =
      (preprocessTransaction fallbackFeatureNames 3 9 otherTransaction).1 ∧
    (preprocessTransaction fallbackFeatureNames 12 6 exampleTransaction).1.lookup
      "Location" = some 0 :=
  ⟨C10_fallback_only_five_columns.1 exampleTransaction otherTransaction 12 6 3 9
      rfl rfl rfl rfl rfl,
   C10_fallback_only_five_columns.2 exampleTransaction 12 6 "Location" (by decide)⟩

end FraudApp
